import Mathlib

/-!
Verification of the element-compiler (a single-file web-component to JS
compiler, `compile.py`).

The embedding models the program after its external collaborators have
answered: the lenient HTML parser is represented by an already-built
document (`Soup`), and the external `sassc` subprocess by an oracle
describing the outcome of one invocation (`SubprocessOutcome`).  The
pure functions of the source (`js_str_esc`, `parse_properties`,
`html2js`, the style gathering and the class assembly in `compile`) are
translated directly.
-/

namespace ElementCompiler

/-- Concatenation of a list of strings, used to express the joins the
source performs with repeated `out(...)` calls and `+=` loops. -/
def strConcat : List String → String
  | [] => ""
  | s :: rest => s ++ strConcat rest

/-- Model of the whitespace stripping the source applies with
`str.strip()`: leading and trailing whitespace characters are removed.
The whitespace class is the ASCII subset; the claims only ever exercise
spaces, tabs and newlines. -/
def pyStrip (s : String) : String :=
  String.mk (((s.data.dropWhile Char.isWhitespace).reverse.dropWhile
    Char.isWhitespace).reverse)

/-! ## String escaper (`js_str_esc`, compile.py lines 93-121) -/

/-- Character-level body of `js_str_esc`: a single left-to-right pass,
quote becomes backslash-quote, newline becomes backslash-n, backslash is
doubled, every other character is copied unchanged. -/
def jsEscChars : List Char → List Char
  | [] => []
  | c :: rest =>
    (if c = '\'' then ['\\', '\'']
     else if c = '\n' then ['\\', 'n']
     else if c = '\\' then ['\\', '\\']
     else [c]) ++ jsEscChars rest

/-- Model of `js_str_esc` (compile.py lines 93-121). -/
def js_str_esc (s : String) : String :=
  String.mk (jsEscChars s.data)

/-- Modelled from the spec: reading the escaped text back as the body of
a single-quoted JS string literal.  The escape sequences the escaper
emits (backslash-quote, backslash-n, doubled backslash) decode to quote,
newline and backslash; an unescaped quote or newline is not a legal
literal body; a trailing lone backslash is not legal; any escape
sequence other than the three above is rejected; every other character
stands for itself. -/
def jsSingleQuotedRead : List Char → Option (List Char)
  | [] => some []
  | c :: rest =>
    if c = '\\' then
      match rest with
      | [] => none
      | d :: rest2 =>
        if d = '\'' || d = '\\' then (jsSingleQuotedRead rest2).map (fun t => d :: t)
        else if d = 'n' then (jsSingleQuotedRead rest2).map (fun t => '\n' :: t)
        else none
    else if c = '\'' || c = '\n' then none
    else (jsSingleQuotedRead rest).map (fun t => c :: t)

lemma jsSingleQuotedRead_jsEscChars (l : List Char) :
    jsSingleQuotedRead (jsEscChars l) = some l := by
  induction l with
  | nil => rfl
  | cons c rest ih =>
    by_cases h1 : c = '\''
    · subst h1; simp [jsEscChars, jsSingleQuotedRead, ih]
    · by_cases h2 : c = '\n'
      · subst h2; simp [jsEscChars, jsSingleQuotedRead, ih]
      · by_cases h3 : c = '\\'
        · subst h3; simp [jsEscChars, jsSingleQuotedRead, ih]
        · rw [show jsEscChars (c :: rest) = c :: jsEscChars rest by
            simp [jsEscChars, h1, h2, h3]]
          rw [jsSingleQuotedRead.eq_def]
          simp [h1, h2, h3, ih]

/-- C2: for every text `t`, applying the string escaper and then parsing
the result back as a single-quoted JS string literal reconstructs `t`
exactly. -/
theorem js_str_esc_roundtrip (t : String) :
    jsSingleQuotedRead (js_str_esc t).data = some t.data := by
  show jsSingleQuotedRead (jsEscChars t.data) = some t.data
  exact jsSingleQuotedRead_jsEscChars t.data

/-! ## Metadata parser (`parse_properties`, compile.py lines 169-194) -/

/-- Whether a character is a word character for the pattern token
matching the property name (the regex class of alphanumerics and the
underscore). -/
def isWordChar (c : Char) : Bool :=
  c.isAlphanum || c = '_'

/-- Drop a literal sequence from the start of a character list,
returning the remainder, or `none` when the list does not start with
that sequence. -/
def dropStart : List Char → List Char → Option (List Char)
  | [], m => some m
  | _ :: _, [] => none
  | p :: ps, c :: cs => if c = p then dropStart ps cs else none

/-- Remove the trailing comment closer (space, dash, dash, greater-than)
from a character list, or `none` when the list does not end with it. -/
def stripCloser (r : List Char) : Option (List Char) :=
  match dropStart (" -->".data.reverse) r.reverse with
  | some v => some v.reverse
  | none => none

/-- Model of the per-line match against the anchored pattern
comment-opener, lazy word token, space, lazy remainder, comment-closer
(compile.py line 190).  The lazy word token is forced to be exactly the
maximal run of word characters before the separating space, and the
lazy remainder is forced by the end anchor to be everything up to the
trailing closer. -/
def matchProp (line : List Char) : Option (List Char × List Char) :=
  match dropStart "<!-- ".data line with
  | none => none
  | some m =>
    let name := m.takeWhile isWordChar
    match m.dropWhile isWordChar with
    | ' ' :: rest =>
      match stripCloser rest with
      | some v => some (name, v)
      | none => none
    | _ => none

/-- Whether a character list contains two consecutive newline
characters. -/
def hasBlankPair : List Char → Bool
  | [] => false
  | c :: rest => (c = '\n' && rest.head? = some '\n') || hasBlankPair rest

/-- The text before the first occurrence of two consecutive newlines,
modelling the prefix selected by the split at the first blank-line
boundary (compile.py line 189). -/
def beforeBlank : List Char → List Char
  | [] => []
  | c :: rest =>
    if c = '\n' ∧ rest.head? = some '\n' then []
    else c :: beforeBlank rest

/-- Split a character list into lines at newline characters, modelling
the inner per-line split (compile.py line 189). -/
def splitLines : List Char → List (List Char)
  | [] => [[]]
  | c :: rest =>
    let ls := splitLines rest
    if c = '\n' then [] :: ls
    else
      match ls with
      | [] => [[c]]
      | l :: ls2 => (c :: l) :: ls2

/-- Accumulate the matched name/value pairs of a list of lines in order;
lines that do not match are skipped silently. -/
def propsOf : List (List Char) → List (List Char × List Char)
  | [] => []
  | l :: rest =>
    match matchProp l with
    | some p => p :: propsOf rest
    | none => propsOf rest

/-- Lookup in an association list where a later entry for the same key
overwrites an earlier one, modelling assignment into a dict. -/
def dictGet {α β : Type} [DecidableEq α] : List (α × β) → α → Option β
  | [], _ => none
  | (k, v) :: rest, key =>
    match dictGet rest key with
    | some v2 => some v2
    | none => if k = key then some v else none

/-- Model of `parse_properties` (compile.py lines 169-194): the matched
name/value pairs of the lines before the first blank-line boundary, in
order, read as a dict through `dictGet`. -/
def parse_properties (src : List Char) : List (List Char × List Char) :=
  propsOf (splitLines (beforeBlank src))

lemma hasBlankPair_of_append_left {pre : List Char} (x : List Char)
    (h : hasBlankPair pre = true) : hasBlankPair (pre ++ x) = true := by
  induction pre with
  | nil => simp [hasBlankPair] at h
  | cons c rest ih =>
    rw [hasBlankPair] at h
    rcases Bool.or_eq_true_iff.mp h with h1 | h1
    · rcases rest with _ | ⟨d, rest2⟩
      · simp at h1
      · simp at h1
        simp [hasBlankPair, h1]
    · simp [hasBlankPair, ih h1]

lemma beforeBlank_eq_self {pre : List Char} (h : hasBlankPair pre = false) :
    beforeBlank pre = pre := by
  induction pre with
  | nil => rfl
  | cons c rest ih =>
    rw [hasBlankPair, Bool.or_eq_false_iff] at h
    rw [beforeBlank, if_neg, ih h.2]
    intro hc
    have h1 := h.1
    simp [hc.1, hc.2] at h1

lemma beforeBlank_append {pre : List Char} (post : List Char)
    (h : hasBlankPair (pre ++ ['\n']) = false) :
    beforeBlank (pre ++ '\n' :: '\n' :: post) = pre := by
  induction pre with
  | nil => simp [beforeBlank]
  | cons c rest ih =>
    rw [List.cons_append, hasBlankPair, Bool.or_eq_false_iff] at h
    rw [List.cons_append, beforeBlank, if_neg, ih h.2]
    intro hc
    have hh : (rest ++ ['\n']).head? = some '\n' := by
      rcases rest with _ | ⟨d, rest2⟩
      · rfl
      · have hd : d = '\n' := by simpa using hc.2
        simp [hd]
    have h1 := h.1
    simp [hc.1, hh] at h1

/-- C5: the metadata parser derives properties only from the text before
the first occurrence of two consecutive line breaks.  Whenever the
appended blank line is the first such boundary, no line after it
contributes, whatever the following content is. -/
theorem parse_properties_stops_at_blank (pre post : List Char)
    (h : hasBlankPair (pre ++ ['\n']) = false) :
    parse_properties (pre ++ '\n' :: '\n' :: post) = parse_properties pre := by
  have hpre : hasBlankPair pre = false := by
    by_contra hb
    have ht := hasBlankPair_of_append_left ['\n'] (Bool.not_eq_false _ |>.mp hb)
    rw [ht] at h
    exact Bool.noConfusion h
  unfold parse_properties
  rw [beforeBlank_append post h, beforeBlank_eq_self hpre]

/-- Witness for C5 at a concrete document: a property line before the
blank boundary is kept, and a well-formed property line after it does
not contribute. -/
theorem parse_properties_stops_at_blank_witness :
    parse_properties ("<!-- name x -->".data ++ '\n' :: '\n' :: "<!-- evil y -->".data)
      = parse_properties "<!-- name x -->".data := by
  exact parse_properties_stops_at_blank "<!-- name x -->".data "<!-- evil y -->".data
    (by decide)

/-- C9: the metadata parser can return a mapping containing the empty
string as a property name: an extra space after the comment opener lets
the word token match zero characters. -/
theorem parse_properties_empty_name :
    parse_properties "<!--  x -->".data = [([], ['x'])] ∧
      dictGet (parse_properties "<!--  x -->".data) [] = some ['x'] := by
  constructor
  · decide
  · decide

/-! ## Parsed document model

The lenient markup parser is an external collaborator; the compiler is
modelled on its result: a tree of element and text nodes, and the
document-order query results `compile` actually uses. -/

/-- A node of the parsed markup tree: an element with its tag name, its
attributes in declaration order and its children, or a text node. -/
inductive Node where
  | elem (tag : String) (attrs : List (String × String)) (children : List Node)
  | text (content : String)
deriving Repr

/-- A script element of the document: its role-declaring `event`
attribute, its optional `attr` and `name` attributes, and its inner
text. -/
structure Script where
  event : Option String
  attr : Option String
  name : Option String
  body : String
deriving Repr, DecidableEq

/-- The parsed document as `compile` queries it: the child lists of the
template elements, the inner texts of the style elements and the script
elements, each in document order. -/
structure Soup where
  templates : List (List Node)
  styles : List String
  scripts : List Script
deriving Repr

/-! ## Style preprocessor adapter (`sassc`, compile.py lines 59-90) -/

/-- Outcome of one invocation of the external style tool: the process
could not be spawned, or it completed with a return code and captured
standard output. -/
inductive SubprocessOutcome where
  | spawnFailure
  | completed (returncode : Int) (stdout : String)

/-- Model of `sassc` (compile.py lines 59-85) run against an oracle
describing the subprocess outcome for each input.  The subprocess call
is made without a status check, so a completed process yields its
stripped standard output whatever its return code; only a failure to
spawn the process escapes as an error. -/
def sassc (run : String → SubprocessOutcome) (style : String) : Except Unit String :=
  match run style with
  | .spawnFailure => .error ()
  | .completed _ out => .ok (pyStrip out)

/-- Model of the pass-through fallback installed when the style tool is
absent (compile.py line 90). -/
def sasscFallback (style : String) : Except Unit String :=
  .ok (pyStrip style)

/-! ## Template tree compiler (`html2js`, compile.py lines 129-166) -/

/-- The attribute-object entries of an element, in declaration order: a
key equal to `class` is renamed to `classList` before emission
(compile.py lines 155-159). -/
def attrsJS : List (String × String) → String
  | [] => ""
  | (k, v) :: rest =>
    let k2 := if k = "class" then "classList" else k
    "'" ++ js_str_esc k2 ++ "':'" ++ js_str_esc v ++ "'," ++ attrsJS rest

mutual

/-- Model of `html2js` (compile.py lines 129-166), returning the text
the source prints: a text node becomes a double-quoted escaped literal,
an element becomes a call of the element factory with its escaped tag,
its attribute object and its compiled children. -/
def html2js : Node → String
  | .text s => "\"" ++ js_str_esc s ++ "\""
  | .elem tag attrs children =>
    "$e('" ++ js_str_esc tag ++ "',\x7b" ++ attrsJS attrs ++ "\x7d,[" ++
      childrenJS children ++ "])"

/-- The compiled children of an element, each followed by a comma
(compile.py lines 162-164). -/
def childrenJS : List Node → String
  | [] => ""
  | c :: rest => html2js c ++ "," ++ childrenJS rest

end

/-! ## Class assembler (`compile`, compile.py lines 197-289) -/

/-- Possible failures of one document's compilation, in the order the
source can hit them: the template-count assertion, a missing `attr`
attribute on an attr-role script, a missing `name` property, a failing
style-tool invocation and a missing `name` attribute on an accessor
script. -/
inductive CompileError where
  | templateCount
  | missingAttrName
  | missingProp
  | styleToolFailure
  | missingAccessorName
deriving Repr, DecidableEq

/-- Gathered style text (compile.py lines 217-220): each style
element's inner text is stripped individually and the results are
concatenated in document order. -/
def gatherStyle (styles : List String) : String :=
  styles.foldl (fun acc s => acc ++ pyStrip s) ""

/-- The script elements carrying a given role attribute, in document
order, modelling the filtered element queries of the source. -/
def scriptsFor (scripts : List Script) (ev : String) : List Script :=
  scripts.filter (fun s => s.event = some ev)

/-- The (attribute name, body) pairs of the attr-role scripts in
document order (compile.py lines 222-225): an attr-role script without
an `attr` attribute is a key error. -/
def attrPairs : List Script → Except CompileError (List (String × String))
  | [] => .ok []
  | s :: rest =>
    if s.event = some "attr" then
      match s.attr with
      | some a => (attrPairs rest).map (fun l => (a, s.body) :: l)
      | none => .error .missingAttrName
    else attrPairs rest

/-- The emitted observed-attribute list (compile.py line 252): the
distinct attribute names, sorted ascending, modelling
`sorted(list(set))`. -/
def observedList (names : List String) : List String :=
  List.insertionSort (fun a b => a ≤ b) names.dedup

/-- JSON rendering of a string, as the list serializer produces it for
the observed-attribute names.  Control characters other than the common
escapes are left as they stand; the claims never depend on them. -/
def jsonStr (s : String) : String :=
  "\"" ++ String.mk (s.data.foldr (fun c acc =>
    (if c = '"' then ['\\', '"']
     else if c = '\\' then ['\\', '\\']
     else if c = '\n' then ['\\', 'n']
     else if c = '\t' then ['\\', 't']
     else if c = '\r' then ['\\', 'r']
     else [c]) ++ acc) []) ++ "\""

/-- JSON rendering of a list of strings with the serializer's default
comma-space separator. -/
def jsonList (l : List String) : String :=
  "[" ++ String.intercalate ", " (l.map jsonStr) ++ "]"

/-- The static observed-attributes accessor (compile.py lines 250-253),
emitted only when some attr-role script exists. -/
def observedSection (names : List String) : String :=
  if names.isEmpty then ""
  else "static get observedAttributes()\x7breturn" ++ jsonList (observedList names) ++ ";\x7d"

/-- The style construction inside the constructor (compile.py lines
234-238): skipped when the gathered style text is empty, otherwise the
style text is run through the selected style tool and the result is
escaped into a style-element construction. -/
def styleSection (tool : String → Except Unit String) (style : String) :
    Except CompileError String :=
  if style = "" then .ok ""
  else
    match tool style with
    | .error _ => .error .styleToolFailure
    | .ok c => .ok ("this.shadow.append($e('style', \x7b\x7d, ['" ++ js_str_esc c ++ "']));")

/-- The template appends inside the constructor (compile.py lines
240-243), one per direct child of the template element, in order. -/
def templateSection (tpl : List Node) : String :=
  strConcat (tpl.map (fun t => "this.shadow.append(" ++ html2js t ++ ");"))

/-- A lifecycle hook section (compile.py lines 255-269): emitted only
when a block of the role exists, concatenating the bodies in document
order inside one hook. -/
def hookSection (hd : String) (blocks : List Script) : String :=
  if blocks.isEmpty then ""
  else hd ++ strConcat (blocks.map (fun s => s.body)) ++ "\x7d"

/-- The accessor members (compile.py lines 271-279): one member per
getter or setter block in document order; a block without a `name`
attribute is a key error. -/
def accessorSection (kw : String) (params : String) :
    List Script → Except CompileError String
  | [] => .ok ""
  | s :: rest =>
    match s.name with
    | some n =>
      (accessorSection kw params rest).map
        (fun r => kw ++ n ++ params ++ s.body ++ "\x7d" ++ r)
    | none => .error .missingAccessorName

/-- The attribute-change hook (compile.py lines 281-287), emitted only
when some attr-role script exists: one independently guarded branch per
attr-role script in document order. -/
def attrCallbackSection (pairs : List (String × String)) : String :=
  if pairs.isEmpty then ""
  else
    "attributeChangedCallback(__attrName, oldValue, value)\x7b" ++
      strConcat (pairs.map (fun p =>
        "if (__attrName === '" ++ js_str_esc p.1 ++ "')\x7b" ++ p.2 ++ "\x7d")) ++
      "\x7d"

/-- Location of the template element (compile.py lines 213-215):
exactly one template element must exist. -/
def locateTemplate : List (List Node) → Except CompileError (List Node)
  | [tpl] => .ok tpl
  | _ => .error .templateCount

/-- The single-template body of `compile` (compile.py lines 217-289).
The failure points appear in the order the source reaches them; on
success the emitted class-definition text is returned. -/
def compileBody (tool : String → Except Unit String)
    (props : List (String × String)) (tpl : List Node)
    (styles : List String) (scripts : List Script) :
    Except CompileError String :=
  let style := gatherStyle styles
  match attrPairs scripts with
    | .error e => .error e
    | .ok pairs =>
      match dictGet props "name" with
      | none => .error .missingProp
      | some nm =>
        match styleSection tool style with
        | .error e => .error e
        | .ok styleSeg =>
          match accessorSection "get " "()\x7b" (scriptsFor scripts "getter") with
          | .error e => .error e
          | .ok getterSeg =>
            match accessorSection "set " "(value)\x7b" (scriptsFor scripts "setter") with
            | .error e => .error e
            | .ok setterSeg =>
              .ok ("customElements.define('" ++ nm ++ "'," ++
                "class extends HTMLElement\x7b" ++
                "constructor()\x7b" ++ "super();" ++
                "this.shadow = this.attachShadow(\x7b'mode':'open'\x7d);" ++
                styleSeg ++ templateSection tpl ++
                strConcat ((scriptsFor scripts "constructor").map (fun s => s.body)) ++
                "\x7d" ++
                observedSection (pairs.map Prod.fst) ++
                hookSection "connectedCallback()\x7b" (scriptsFor scripts "connected") ++
                hookSection "disconnectedCallback()\x7b" (scriptsFor scripts "disconnected") ++
                getterSeg ++ setterSeg ++
                attrCallbackSection pairs ++
                "\x7d);")

/-- Model of `compile` (compile.py lines 197-289) on one parsed
document, parametric in the process-wide selected style tool. -/
def compileDoc (tool : String → Except Unit String)
    (props : List (String × String)) (soup : Soup) :
    Except CompileError String :=
  match locateTemplate soup.templates with
  | .error e => .error e
  | .ok tpl => compileBody tool props tpl soup.styles soup.scripts

/-- Whether one document's compilation produced output. -/
def isOkE : Except CompileError String → Bool
  | .ok _ => true
  | .error _ => false

/-! ## Helper lemmas about the possible failures of each stage -/

lemma attrPairs_error_eq : ∀ {l : List Script} {e : CompileError},
    attrPairs l = .error e → e = .missingAttrName := by
  intro l
  induction l with
  | nil => intro e h; simp [attrPairs] at h
  | cons s rest ih =>
    intro e h
    rw [attrPairs] at h
    by_cases hev : s.event = some "attr"
    · rw [if_pos hev] at h
      rcases ha : s.attr with _ | a
      · rw [ha] at h
        simp at h
        exact h.symm
      · rw [ha] at h
        rcases hr : attrPairs rest with e2 | pairs
        · rw [hr] at h
          simp [Except.map] at h
          exact h ▸ ih hr
        · rw [hr] at h
          simp [Except.map] at h
    · rw [if_neg hev] at h
      exact ih h

lemma accessorSection_error_eq : ∀ {kw params : String} {l : List Script}
    {e : CompileError}, accessorSection kw params l = .error e →
    e = .missingAccessorName := by
  intro kw params l
  induction l with
  | nil => intro e h; simp [accessorSection] at h
  | cons s rest ih =>
    intro e h
    rw [accessorSection] at h
    rcases hn : s.name with _ | n
    · rw [hn] at h
      simp at h
      exact h.symm
    · rw [hn] at h
      rcases hr : accessorSection kw params rest with e2 | r
      · rw [hr] at h
        simp [Except.map] at h
        exact h ▸ ih hr
      · rw [hr] at h
        simp [Except.map] at h

lemma styleSection_error_eq {tool : String → Except Unit String}
    {style : String} {e : CompileError}
    (h : styleSection tool style = .error e) : e = .styleToolFailure := by
  rw [styleSection] at h
  by_cases hs : style = ""
  · rw [if_pos hs] at h
    simp at h
  · rw [if_neg hs] at h
    rcases ht : tool style with u | c
    · rw [ht] at h
      simp at h
      exact h.symm
    · rw [ht] at h
      simp at h

lemma compileBody_ne_templateCount (tool : String → Except Unit String)
    (props : List (String × String)) (tpl : List Node)
    (styles : List String) (scripts : List Script) :
    compileBody tool props tpl styles scripts ≠ .error .templateCount := by
  unfold compileBody
  rcases hA : attrPairs scripts with e | pairs
  · simp [attrPairs_error_eq hA]
  · rcases hN : dictGet props "name" with _ | nm
    · simp
    · rcases hS : styleSection tool (gatherStyle styles) with e | styleSeg
      · simp [hS, styleSection_error_eq hS]
      · rcases hG : accessorSection "get " "()\x7b" (scriptsFor scripts "getter") with e | g
        · simp [hS, hG, accessorSection_error_eq hG]
        · rcases hT : accessorSection "set " "(value)\x7b" (scriptsFor scripts "setter") with e | st
          · simp [hS, hG, hT, accessorSection_error_eq hT]
          · simp [hS, hG, hT]

/-! ## Claims about the class assembler -/

/-- C1: compilation fails with the template-count error when the parsed
markup contains zero or two-or-more template elements, and proceeds past
template location (never failing with that error) when it contains
exactly one. -/
theorem compile_single_template (tool : String → Except Unit String)
    (props : List (String × String)) (soup : Soup) :
    (soup.templates.length ≠ 1 →
      compileDoc tool props soup = .error .templateCount) ∧
    (soup.templates.length = 1 →
      compileDoc tool props soup ≠ .error .templateCount) := by
  obtain ⟨tpls, styles, scripts⟩ := soup
  constructor
  · intro h
    rcases tpls with _ | ⟨t, _ | ⟨t2, ts⟩⟩
    · simp [compileDoc, locateTemplate]
    · simp at h
    · simp [compileDoc, locateTemplate]
  · intro h
    rcases tpls with _ | ⟨t, _ | ⟨t2, ts⟩⟩
    · simp at h
    · simpa [compileDoc, locateTemplate] using
        compileBody_ne_templateCount tool props t styles scripts
    · simp at h

/-- A document with no template element. -/
def soupNone : Soup := ⟨[], [], []⟩

/-- A document with exactly one (empty) template element. -/
def soupEmpty : Soup := ⟨[[]], [], []⟩

/-- Witness for C1: a concrete document with zero templates fails with
the template-count error, and one with exactly one template does not. -/
theorem compile_single_template_witness :
    compileDoc sasscFallback [] soupNone = .error .templateCount ∧
    compileDoc sasscFallback [] soupEmpty ≠ .error .templateCount :=
  ⟨(compile_single_template sasscFallback [] soupNone).1 (by decide),
   (compile_single_template sasscFallback [] soupEmpty).2 (by decide)⟩

/-- C3: the emitted observed-attributes list is sorted ascending and
free of duplicate names, whatever attribute names the attr-role blocks
declare — including several blocks sharing one name. -/
theorem observed_sorted_nodup (names : List String) :
    (observedList names).Sorted (fun a b => a ≤ b) ∧
      (observedList names).Nodup := by
  constructor
  · exact List.sorted_insertionSort _ _
  · exact ((List.perm_insertionSort _ _).nodup_iff).mpr (List.nodup_dedup _)

lemma foldl_strip_append (styles : List String) :
    ∀ acc : String,
      List.foldl (fun acc s => acc ++ pyStrip s) acc styles =
        acc ++ strConcat (styles.map pyStrip) := by
  induction styles with
  | nil => intro acc; simp [strConcat]
  | cons s rest ih =>
    intro acc
    simp only [List.foldl_cons, List.map_cons, strConcat, ih,
      String.append_assoc]

/-- C4 counterexample: with two style elements whose inner texts are
`a ` and `b`, the gathered style text the source hands to the
preprocessor is `ab`, while trimming the concatenated whole would give
`a b`. -/
theorem gather_style_not_trim_of_whole :
    gatherStyle ["a ", "b"] = "ab" ∧
      pyStrip (strConcat ["a ", "b"]) = "a b" ∧
      gatherStyle ["a ", "b"] ≠ pyStrip (strConcat ["a ", "b"]) := by
  refine ⟨by decide, by decide, by decide⟩

lemma gatherStyle_eq_concat (styles : List String) :
    gatherStyle styles = strConcat (styles.map pyStrip) := by
  simpa [gatherStyle] using foldl_strip_append styles ""

/-- C4 (amended): the gathered style text — the argument `compileBody`
hands to the style preprocessor — equals the concatenation, in source
order, of each style element's inner text with surrounding whitespace
trimmed from each piece individually. -/
theorem gather_style_concat_of_trimmed (styles : List String) :
    gatherStyle styles = strConcat (styles.map pyStrip) :=
  gatherStyle_eq_concat styles

/-- C6: in the compiled output of an element node, an attribute with
key `class` is emitted under the key `classList`, the literal key
`class` never appears among the emitted attribute keys, and every other
key passes through unchanged. -/
theorem class_attr_remapped (tag : String) (attrs : List (String × String))
    (children : List Node) :
    html2js (Node.elem tag attrs children) =
      "$e('" ++ js_str_esc tag ++ "',\x7b" ++
        strConcat
          ((attrs.map (fun kv =>
              (if kv.1 = "class" then "classList" else kv.1, kv.2))).map
            (fun kv => "'" ++ js_str_esc kv.1 ++ "':'" ++ js_str_esc kv.2 ++ "',")) ++
        "\x7d,[" ++ childrenJS children ++ "])" ∧
    "class" ∉ attrs.map (fun kv => if kv.1 = "class" then "classList" else kv.1) := by
  constructor
  · rw [html2js]
    have harr : ∀ l : List (String × String),
        attrsJS l =
          strConcat ((l.map (fun kv =>
              (if kv.1 = "class" then "classList" else kv.1, kv.2))).map
            (fun kv => "'" ++ js_str_esc kv.1 ++ "':'" ++ js_str_esc kv.2 ++ "',")) := by
      intro l
      induction l with
      | nil => rfl
      | cons kv rest ih =>
        obtain ⟨k, v⟩ := kv
        simp only [attrsJS, List.map_cons, strConcat, ih, String.append_assoc]
    rw [harr]
  · intro hmem
    rw [List.mem_map] at hmem
    obtain ⟨kv, _, heq⟩ := hmem
    by_cases h : kv.1 = "class"
    · rw [if_pos h] at heq
      exact absurd heq (by decide)
    · rw [if_neg h] at heq
      exact h heq

lemma strConcat_all_empty {l : List String} (h : ∀ s ∈ l, s = "") :
    strConcat l = "" := by
  induction l with
  | nil => rfl
  | cons s rest ih =>
    rw [strConcat, h s (List.mem_cons_self s rest),
      ih (fun t ht => h t (List.mem_cons_of_mem s ht))]
    rfl

/-- C10: when every style element's inner text is whitespace-only, the
gathered style text is empty, no style construction is emitted, and the
style preprocessor is never invoked — compilation does not depend on
the selected tool at all.  The emission guard tests emptiness of the
gathered text, not the presence of style elements. -/
theorem whitespace_styles_skip_tool (tool1 tool2 : String → Except Unit String)
    (props : List (String × String)) (soup : Soup)
    (h : ∀ s ∈ soup.styles, pyStrip s = "") :
    gatherStyle soup.styles = "" ∧
    styleSection tool1 (gatherStyle soup.styles) = .ok "" ∧
    compileDoc tool1 props soup = compileDoc tool2 props soup := by
  have hg : gatherStyle soup.styles = "" := by
    rw [gatherStyle_eq_concat]
    exact strConcat_all_empty (by
      intro s hs
      rw [List.mem_map] at hs
      obtain ⟨t, ht, rfl⟩ := hs
      exact h t ht)
  refine ⟨hg, by simp [hg, styleSection], ?_⟩
  rcases hloc : locateTemplate soup.templates with e | tpl
  · simp [compileDoc, hloc]
  · simp [compileDoc, hloc, compileBody, hg, styleSection]

/-- A document with one empty template and two whitespace-only style
elements. -/
def soupBlankStyles : Soup := ⟨[[]], ["  ", "\n"], []⟩

/-- Witness for C10 at a concrete document with whitespace-only style
elements: a tool that always fails and a pass-through tool compile it
identically, with no style construction. -/
theorem whitespace_styles_skip_tool_witness :
    gatherStyle soupBlankStyles.styles = "" ∧
    styleSection (fun _ => .error ()) (gatherStyle soupBlankStyles.styles) = .ok "" ∧
    compileDoc (fun _ => .error ()) [("name", "x-a")] soupBlankStyles =
      compileDoc sasscFallback [("name", "x-a")] soupBlankStyles :=
  whitespace_styles_skip_tool (fun _ => .error ()) sasscFallback
    [("name", "x-a")] soupBlankStyles (by decide)

/-- C7: on success, the emitted class text places in the constructor
body, in this order: the open shadow-root attachment, then a style
construction that is present exactly when the gathered style text is
non-empty (and then holds the preprocessed style text), then one append
per template child in order, then the bodies of the constructor-role
scripts in source order; the remaining sections follow the closing
brace of the constructor. -/
theorem compile_constructor_layout (tool : String → Except Unit String)
    (props : List (String × String)) (soup : Soup) (tpl : List Node)
    (pairs : List (String × String)) (nm styleSeg getterSeg setterSeg : String)
    (htpl : soup.templates = [tpl])
    (hpairs : attrPairs soup.scripts = .ok pairs)
    (hnm : dictGet props "name" = some nm)
    (hstyle : styleSection tool (gatherStyle soup.styles) = .ok styleSeg)
    (hget : accessorSection "get " "()\x7b" (scriptsFor soup.scripts "getter") = .ok getterSeg)
    (hset : accessorSection "set " "(value)\x7b" (scriptsFor soup.scripts "setter") = .ok setterSeg) :
    compileDoc tool props soup =
      .ok ("customElements.define('" ++ nm ++ "'," ++
        "class extends HTMLElement\x7b" ++
        "constructor()\x7b" ++ "super();" ++
        "this.shadow = this.attachShadow(\x7b'mode':'open'\x7d);" ++
        styleSeg ++ templateSection tpl ++
        strConcat ((scriptsFor soup.scripts "constructor").map (fun s => s.body)) ++
        "\x7d" ++
        observedSection (pairs.map Prod.fst) ++
        hookSection "connectedCallback()\x7b" (scriptsFor soup.scripts "connected") ++
        hookSection "disconnectedCallback()\x7b" (scriptsFor soup.scripts "disconnected") ++
        getterSeg ++ setterSeg ++
        attrCallbackSection pairs ++
        "\x7d);") ∧
    (gatherStyle soup.styles = "" → styleSeg = "") ∧
    (gatherStyle soup.styles ≠ "" →
      ∃ c, tool (gatherStyle soup.styles) = .ok c ∧
        styleSeg = "this.shadow.append($e('style', \x7b\x7d, ['" ++ js_str_esc c ++ "']));") := by
  refine ⟨?_, ?_, ?_⟩
  · simp [compileDoc, htpl, locateTemplate, compileBody, hpairs, hnm, hstyle,
      hget, hset]
  · intro h
    rw [h] at hstyle
    simp [styleSection] at hstyle
    exact hstyle.symm
  · intro h
    rw [styleSection, if_neg h] at hstyle
    rcases ht : tool (gatherStyle soup.styles) with u | c
    · rw [ht] at hstyle
      simp at hstyle
    · rw [ht] at hstyle
      simp at hstyle
      exact ⟨c, rfl, hstyle.symm⟩

/-- Witness for C7 at a concrete empty-template document compiled with
the pass-through tool. -/
theorem compile_constructor_layout_witness :
    compileDoc sasscFallback [("name", "x-a")] soupEmpty =
      .ok ("customElements.define('" ++ "x-a" ++ "'," ++
        "class extends HTMLElement\x7b" ++
        "constructor()\x7b" ++ "super();" ++
        "this.shadow = this.attachShadow(\x7b'mode':'open'\x7d);" ++
        "" ++ templateSection [] ++
        strConcat ((scriptsFor soupEmpty.scripts "constructor").map (fun s => s.body)) ++
        "\x7d" ++
        observedSection (([] : List (String × String)).map Prod.fst) ++
        hookSection "connectedCallback()\x7b" (scriptsFor soupEmpty.scripts "connected") ++
        hookSection "disconnectedCallback()\x7b" (scriptsFor soupEmpty.scripts "disconnected") ++
        "" ++ "" ++
        attrCallbackSection [] ++
        "\x7d);") :=
  (compile_constructor_layout sasscFallback [("name", "x-a")] soupEmpty []
    [] "x-a" "" "" "" rfl rfl rfl rfl rfl rfl).1

/-- A document with one empty template and one style element with
non-blank inner text. -/
def soupStyled : Soup := ⟨[[]], ["x"], []⟩

/-- C8 counterexample: when the external style tool is invoked on a
document's non-empty style text and exits with return code 1 producing
no output, compilation does not raise: it completes and emits output
(the gathered style text being non-empty shows the tool really is
invoked). -/
theorem sassc_nonzero_exit_not_fatal :
    gatherStyle soupStyled.styles ≠ "" ∧
    isOkE (compileDoc (sassc (fun _ => SubprocessOutcome.completed 1 ""))
      [("name", "x-a")] soupStyled) = true := by
  exact ⟨by decide, rfl⟩

/-- C8 (amended): a failure to spawn the external preprocessor is fatal
for the document — compilation returns the style-tool error instead of
output — but the tool exiting with a non-zero status is not a failure:
the run's captured standard output is stripped and used, so compilation
proceeds exactly as it would had the tool exited with status zero. -/
theorem sassc_failure_semantics (props : List (String × String)) (soup : Soup)
    (tpl : List Node) (pairs : List (String × String)) (nm : String)
    (rc : Int) (stdout : String)
    (htpl : soup.templates = [tpl])
    (hpairs : attrPairs soup.scripts = .ok pairs)
    (hnm : dictGet props "name" = some nm)
    (hstyle : gatherStyle soup.styles ≠ "") :
    compileDoc (sassc (fun _ => SubprocessOutcome.spawnFailure)) props soup =
      .error .styleToolFailure ∧
    compileDoc (sassc (fun _ => SubprocessOutcome.completed rc stdout)) props soup =
      compileDoc (sassc (fun _ => SubprocessOutcome.completed 0 stdout)) props soup := by
  constructor
  · simp [compileDoc, htpl, locateTemplate, compileBody, hpairs, hnm,
      styleSection, hstyle, sassc]
  · simp [compileDoc, htpl, locateTemplate, compileBody, sassc, styleSection]

/-- Witness for C8 at a concrete styled document: spawn failure yields
the style-tool error, and exit status 1 compiles identically to exit
status 0. -/
theorem sassc_failure_semantics_witness :
    compileDoc (sassc (fun _ => SubprocessOutcome.spawnFailure))
      [("name", "x-a")] soupStyled = .error .styleToolFailure ∧
    compileDoc (sassc (fun _ => SubprocessOutcome.completed 1 "p \x7b color: red \x7d"))
      [("name", "x-a")] soupStyled =
      compileDoc (sassc (fun _ => SubprocessOutcome.completed 0 "p \x7b color: red \x7d"))
      [("name", "x-a")] soupStyled :=
  sassc_failure_semantics [("name", "x-a")] soupStyled [] [] "x-a" 1
    "p \x7b color: red \x7d" rfl rfl rfl (by decide)

end ElementCompiler
